import Mathlib

/-!
Shallow embedding of the immo-eliza scraping pipeline
(src/scraper/crawler.py, src/scraper/parser.py, src/utils/file_utils.py,
src/utils/helpers.py) and proofs of the spec claims about it.

Network effects are modelled by passing each fetch's outcome explicitly:
an HTTP interaction either raises (timeout, connection error, or any other
exception — all caught uniformly by the Python code's `except` clauses) or
yields a response with a status code and a parsed document.  Parsed HTML
documents are modelled by structures holding exactly the pieces of the page
each function selects (texts of selected elements, attribute values, hrefs),
already stripped as `get_text(strip=True)` would return them.
-/

/-- Exceptions a `session.get` call can raise; the Python code catches all
of them uniformly (`except Exception` / `except (RequestException, Exception)`),
so only their existence matters, not their payload. -/
inductive NetErr where
  | timeout
  | connectionError
  | otherExc
deriving DecidableEq

/-- Outcome of one HTTP interaction over a page model `P`: either an
exception was raised, or a response with a status code and parsed body
came back. -/
inductive FetchOutcome (P : Type) where
  | err (e : NetErr)
  | resp (status : Nat) (page : P)

/-- A Python value that is either an int or a str (needed because
`fetch_page_limit` can return either, see below). -/
inductive PyVal where
  | int (n : Int)
  | str (s : String)
deriving DecidableEq

/-- Interpret a list of decimal digit characters as a natural number
(helper for the embeddings of Python's `int(...)` and of `clean_numeric`). -/
def digitsToNat (ds : List Char) : Nat :=
  ds.foldl (fun a c => a * 10 + (c.toNat - 48)) 0

/-- Strip leading and trailing whitespace from a character list (the
whitespace handling of Python's `int`). -/
def pyStrip (ds : List Char) : List Char :=
  ((ds.dropWhile Char.isWhitespace).reverse.dropWhile Char.isWhitespace).reverse

/-- Embedding of Python's `int(s)` on strings: strips surrounding
whitespace, accepts an optional sign followed by decimal digits, and fails
(raises `ValueError`, here `none`) otherwise. -/
def pyInt (s : String) : Option Int :=
  match pyStrip s.data with
  | [] => none
  | c :: ds =>
    if c = '-' then
      if ds ≠ [] ∧ ds.all Char.isDigit then some (-(digitsToNat ds : Int)) else none
    else if c = '+' then
      if ds ≠ [] ∧ ds.all Char.isDigit then some ((digitsToNat ds : Int)) else none
    else if (c :: ds).all Char.isDigit then some ((digitsToNat (c :: ds) : Int))
    else none

/-- Embedding of Python's substring test `need in hay` (on the character
lists of the two strings): true iff `need` occurs contiguously in `hay`. -/
def strContains (hay need : List Char) : Bool :=
  match hay with
  | [] => need.isEmpty
  | c :: t => need.isPrefixOf (c :: t) || strContains t need

/-- Embedding of Python's `str.lower()` (the texts involved are ASCII, where
`Char.toLower` agrees with Python's per-character lowercasing). -/
def pyLower (s : String) : String :=
  ⟨s.data.map Char.toLower⟩

/-- Worker for `pySplit`: scan the characters left to right, cutting at each
occurrence of the (nonempty) separator, structurally recursive on a fuel
bounded below by the text length (each step consumes at least one
character, so the fuel-exhausted fallback is never reached from
`pySplit`). -/
def pySplitGo (sep : List Char) : Nat → List Char → List Char → List (List Char)
  | _, acc, [] => [acc.reverse]
  | 0, acc, rest => [acc.reverse ++ rest]
  | fuel + 1, acc, c :: t =>
    if sep.isPrefixOf (c :: t) then
      acc.reverse :: pySplitGo sep fuel [] ((c :: t).drop sep.length)
    else
      pySplitGo sep fuel (c :: acc) t

/-- Embedding of Python's `s.split(sep)` for a nonempty separator: the
pieces between the non-overlapping, leftmost-first occurrences of `sep`
(`"a//b".split("/") == ["a", "", "b"]`, `"".split("/") == [""]`). -/
def pySplit (s sep : String) : List String :=
  (pySplitGo sep.data s.data.length [] s.data).map (fun ds => ⟨ds⟩)

/-- Embedding of Python's `s.replace(old, new)` for a nonempty `old`:
equivalent to splitting on `old` and interposing `new`. -/
def pyReplace (s old new : String) : String :=
  ⟨List.intercalate new.data (pySplitGo old.data s.data.length [] s.data)⟩

/-- utils/helpers.py `safe_get_text`: text of an element when present,
otherwise the default.  An element is modelled by the (stripped) text it
would yield, `none` when `soup.find` returned `None`. -/
def safe_get_text (soup_element : Option String) (default : String) : String :=
  match soup_element with
  | some t => t
  | none => default

/-- utils/helpers.py `clean_numeric`: `None` on a falsy input (None or the
empty string); otherwise concatenate every digit occurring in the text and
parse the result, `None` when the text holds no digit. -/
def clean_numeric (text : Option String) : Option Nat :=
  match text with
  | none => none
  | some t =>
    if t = "" then none
    else
      let ds := t.data.filter Char.isDigit
      if ds = [] then none else some (digitsToNat ds)

/-- crawler.py line 38 / spec §4.4 `dedupe`: `list(set(results))` — collapse
a possibly-duplicated sequence of URL strings to its set of distinct
elements, keyed on exact string equality. -/
def dedupe (results : List String) : List String :=
  results.dedup

/-- Worker for `pyChunks`, structurally recursive on a fuel bounded below
by the list length (the Python loop runs at most `len(urls)` iterations
when the step `B` is positive). -/
def pyChunksGo {α : Type} (B : Nat) : Nat → List α → List (List α)
  | _, [] => []
  | 0, _ :: _ => []
  | fuel + 1, u :: rest => ((u :: rest).take B) :: pyChunksGo B fuel ((u :: rest).drop B)

/-- parser.py `run_optimized_scraping` batching step: the slices
`urls[i : i + B]` for `i in range(0, len(urls), B)`.  For `B > 0` this is
`take B` / `drop B` repeated until the list is exhausted; Python raises
`ValueError` on step 0, a case no caller exercises, modelled as the empty
partition. -/
def pyChunks {α : Type} (urls : List α) (B : Nat) : List (List α) :=
  if B = 0 then [] else pyChunksGo B urls.length urls

/-- `pyChunksGo` does not depend on the fuel once the fuel dominates the
list length (and the step is positive). -/
theorem pyChunksGo_fuel {α : Type} (B : Nat) (hB : B ≠ 0) :
    ∀ (fuel₁ fuel₂ : Nat) (l : List α), l.length ≤ fuel₁ → l.length ≤ fuel₂ →
      pyChunksGo B fuel₁ l = pyChunksGo B fuel₂ l := by
  intro fuel₁
  induction fuel₁ with
  | zero =>
    intro fuel₂ l h₁ _
    have : l = [] := List.eq_nil_of_length_eq_zero (Nat.le_zero.mp h₁)
    subst this
    cases fuel₂ <;> rfl
  | succ k ih =>
    intro fuel₂ l h₁ h₂
    cases l with
    | nil => cases fuel₂ <;> rfl
    | cons u rest =>
      cases fuel₂ with
      | zero => simp at h₂
      | succ m =>
        simp only [pyChunksGo]
        have hlen : ((u :: rest).drop B).length = rest.length + 1 - B := by
          simp [List.length_drop]
        have hk : ((u :: rest).drop B).length ≤ k := by
          simp only [List.length_cons] at h₁
          omega
        have hm : ((u :: rest).drop B).length ≤ m := by
          simp only [List.length_cons] at h₂
          omega
        rw [ih m _ hk hm]

/-- Unfolding rule for `pyChunks` on a nonempty list with positive step. -/
theorem pyChunks_cons {α : Type} (B : Nat) (hB : B ≠ 0) (l : List α) (hl : l ≠ []) :
    pyChunks l B = l.take B :: pyChunks (l.drop B) B := by
  cases l with
  | nil => exact absurd rfl hl
  | cons u rest =>
    simp only [pyChunks, hB, if_false, List.length_cons, pyChunksGo]
    have hd : ((u :: rest).drop B).length ≤ rest.length := by
      simp only [List.length_drop, List.length_cons]
      omega
    rw [pyChunksGo_fuel B hB rest.length ((u :: rest).drop B).length _ hd (le_refl _)]

/-- `pyChunks` of the empty list is empty. -/
theorem pyChunks_nil {α : Type} (B : Nat) : pyChunks ([] : List α) B = [] := by
  simp only [pyChunks]
  cases B <;> rfl

-- quick sanity checks on the helpers
example : pyInt " 42 " = some 42 := by decide
example : pyInt "abc" = none := by decide
example : strContains "life annuity".data "annuity".data = true := by decide
example : strContains "annual".data "annuity".data = false := by decide
example : clean_numeric (some "1.250 €") = some 1250 := by decide
example : pyChunks [1, 2, 3, 4, 5] 2 = [[1, 2], [3, 4], [5]] := by decide

/-- The property record built by parser.py `initialize_property_dict`: one
field per key of the Python dict, every value optional (initialised to
`None`). -/
structure PropertyDict where
  url : String
  locality : Option String
  zipCode : Option Nat
  typeOfProperty : Option String
  subtypeOfProperty : Option String
  price : Option Nat
  typeOfSale : Option String
  numberOfRooms : Option Nat
  livingArea : Option Nat
  fullyEquippedKitchen : Option String
  furnished : Option Nat
  openFire : Option Nat
  terrace : Option Nat
  terraceArea : Option Nat
  garden : Option Nat
  gardenArea : Option Nat
  surfaceOfTheLand : Option Nat
  numberOfFacades : Option Nat
  swimmingPool : Option Nat
  stateOfTheBuilding : Option String
deriving DecidableEq

/-- The pieces of a parsed detail page that parser.py's extractors select:
the (stripped) text of the financial summary div (`div.financial w-100`),
of the city line span, of the price span, and the `general-info` table as
the ordered list of pairs (h4 heading text, text of the following p when
present).  A field is `none` when `soup.find` returns `None`. -/
structure DetailPage where
  financial : Option String
  cityLine : Option String
  priceText : Option String
  generalInfo : Option (List (String × Option String))

/-- parser.py `initialize_property_dict`: every field `None`, URL kept. -/
def initialize_property_dict (url : String) : PropertyDict :=
  { url := url
    locality := none, zipCode := none
    typeOfProperty := none, subtypeOfProperty := none
    price := none, typeOfSale := none
    numberOfRooms := none, livingArea := none
    fullyEquippedKitchen := none, furnished := none
    openFire := none, terrace := none, terraceArea := none
    garden := none, gardenArea := none
    surfaceOfTheLand := none, numberOfFacades := none
    swimmingPool := none, stateOfTheBuilding := none }

/-- parser.py `set_property_locality`: locality text (empty default) and the
zip code extracted from it. -/
def set_property_locality (soup : DetailPage) (property_dict : PropertyDict) : PropertyDict :=
  let loc := safe_get_text soup.cityLine ""
  { property_dict with locality := some loc, zipCode := clean_numeric (some loc) }

/-- parser.py `set_property_type`: split the URL on `/`; with at least 6
parts, part 5 is the subtype (and decides house vs apartment), and with
more than 6 parts, part 6 (dashes turned to spaces) is the sale type;
otherwise the dict is left untouched. -/
def set_property_type (property_dict : PropertyDict) (url : String) : PropertyDict :=
  let parts := pySplit url "/"
  if h : 6 ≤ parts.length then
    let subtype := parts.get ⟨5, by omega⟩
    let d :=
      { property_dict with
        typeOfProperty := some
          (if subtype ∈ ["residence", "mixed-building", "master-house", "villa"]
           then "House" else "Apartment")
        subtypeOfProperty := some subtype }
    if h2 : 6 < parts.length then
      { d with typeOfSale := some (pyReplace (parts.get ⟨6, by omega⟩) "-" " ") }
    else d
  else property_dict

/-- parser.py `set_property_price`: price span text through `clean_numeric`. -/
def set_property_price (property_dict : PropertyDict) (soup : DetailPage) : PropertyDict :=
  let price := safe_get_text soup.priceText ""
  { property_dict with price := clean_numeric (some price) }

/-- parser.py `set_property_general_infos` binary map with its `.get(val, 0)`
default: Yes/equipped variants to 1, everything unknown to 0. -/
def binary_map_get (val : String) : Nat :=
  if val = "Yes" then 1
  else if val = "No" then 0
  else if val = "0" then 0
  else if val = "Fully equipped" then 1
  else if val = "Super equipped" then 1
  else if val = "Partially equipped" then 0
  else 0

/-- One iteration of the `for h in headers` loop of
`set_property_general_infos`: dispatch on the h4 heading text and update
the matching dict field; skipped when the following p is absent. -/
def apply_general_info (property_dict : PropertyDict) (kv : String × Option String) :
    PropertyDict :=
  match kv.2 with
  | none => property_dict
  | some val =>
    let key := kv.1
    if key = "State of the property" then
      { property_dict with stateOfTheBuilding := some val }
    else if key = "Number of bedrooms" then
      { property_dict with numberOfRooms := clean_numeric (some val) }
    else if key = "Livable surface" then
      { property_dict with livingArea := clean_numeric (some val) }
    else if key = "Kitchen equipment" then
      { property_dict with fullyEquippedKitchen := some val }
    else if key = "Furnished" then
      { property_dict with furnished := some (binary_map_get val) }
    else if key = "Fireplace" then
      { property_dict with openFire := some (binary_map_get val) }
    else if key = "Terrace" then
      { property_dict with terrace := some (binary_map_get val) }
    else if key = "Terrace Area" then
      { property_dict with terraceArea := clean_numeric (some val) }
    else if key = "Garden" then
      { property_dict with garden := some (binary_map_get val) }
    else if key = "Surface garden" then
      { property_dict with gardenArea := clean_numeric (some val) }
    else if key = "Total land surface" then
      { property_dict with surfaceOfTheLand := clean_numeric (some val) }
    else if key = "Number of facades" then
      { property_dict with numberOfFacades := clean_numeric (some val) }
    else if key = "Swimming pool" then
      { property_dict with swimmingPool := some (binary_map_get val) }
    else property_dict

/-- parser.py `set_property_general_infos`: when the `general-info` div is
present, fold the heading/value pairs through `apply_general_info`. -/
def set_property_general_infos (soup : DetailPage) (property_dict : PropertyDict) :
    PropertyDict :=
  match soup.generalInfo with
  | none => property_dict
  | some entries => entries.foldl apply_general_info property_dict

/-- parser.py `get_property_data`: skip the listing (return `None`) when the
financial summary div is present and its lowercased text contains the
substring "annuity"; otherwise build the dict through the four setters, in
the source's order. -/
def get_property_data (url : String) (soup : DetailPage) : Option PropertyDict :=
  match soup.financial with
  | some t =>
    if strContains (pyLower t).data "annuity".data then none
    else
      some (set_property_general_infos soup
        (set_property_price
          (set_property_type (set_property_locality soup (initialize_property_dict url)) url)
          soup))
  | none =>
    some (set_property_general_infos soup
      (set_property_price
        (set_property_type (set_property_locality soup (initialize_property_dict url)) url)
        soup))

/-- parser.py `get_data_from_url`: the whole body sits in a `try` whose
`except` catches every exception and returns `None`; a non-200 status also
returns `None`; only a 200 response is parsed and handed to
`get_property_data`.  The fetch's outcome is passed explicitly. -/
def get_data_from_url (url : String) (outcome : FetchOutcome DetailPage) :
    Option PropertyDict :=
  match outcome with
  | .err _ => none
  | .resp status page =>
    if status ≠ 200 then none
    else get_property_data url page

/-- The piece of a parsed search page that crawler.py `fetch_page_limit`
selects: the `data-value-page` attribute values of the tags matched by
`ul.pagination a.page-link[data-value-page]`, in document order (the CSS
attribute selector only matches tags that carry the attribute). -/
structure SeedPage where
  pagValues : List String

/-- crawler.py `fetch_page_limit`.  `last_page_number` starts as the int 1;
inside the `try`, a successful fetch is parsed, and when the selector finds
tags, `last_page_number` is rebound to the last tag's attribute value — a
string.  `int(last_page_number) + 10` is returned; when `int` fails, or the
fetch raised, the `except` returns `last_page_number` as it then is (the
string read, or the int 1).  The function never inspects the status code,
so a non-success response is parsed like any other.  The result is an int
or a string, hence `PyVal`. -/
def fetch_page_limit (outcome : FetchOutcome SeedPage) : PyVal :=
  match outcome with
  | .err _ => .int 1
  | .resp _ page =>
    if h : page.pagValues = [] then .int (1 + 10)
    else
      match pyInt (page.pagValues.getLast h) with
      | some n => .int (n + 10)
      | none => .str (page.pagValues.getLast h)

/-- crawler.py `generate_pages_urls`: for every base URL, look up its page
bound and append `&page=i` for `i in range(1, max_p)`.  The per-seed bound
(what `fetch_page_limit` came to over the network) is passed as a
function. -/
def generate_pages_urls (limit : String → Nat) (base_urls : List String) : List String :=
  base_urls.flatMap (fun url =>
    (List.range' 1 (limit url - 1)).map (fun i => url ++ "&page=" ++ toString i))

/-- The piece of a parsed search results page that crawler.py
`fetch_properties_urls` selects: the href targets of the anchors matched by
`h2 a[href]`, in document order. -/
structure ListingPage where
  anchors : List String

/-- crawler.py `fetch_properties_urls`: an exception yields the empty list
(the `except` returns the still-empty accumulator); a non-200 status is
skipped; on 200, keep every `h2 a[href]` target whose text does not contain
"/projectdetail/". -/
def fetch_properties_urls (outcome : FetchOutcome ListingPage) : List String :=
  match outcome with
  | .err _ => []
  | .resp status page =>
    if status = 200 then
      page.anchors.filter (fun href => !strContains href.data "/projectdetail/".data)
    else []

/-- The destination CSV file as `save_to_csv_incremental` shapes it: how
many header rows were written into it and the data rows appended so far. -/
structure CsvFile where
  headerCount : Nat
  rows : List PropertyDict
deriving DecidableEq

/-- utils/file_utils.py `save_to_csv_incremental`: `to_csv(mode='a',
header=not os.path.isfile(filename))` — append mode creates the file when
absent and writes the header exactly when the file did not exist before the
call.  The file system state is `none` while the destination does not
exist. -/
def save_to_csv_incremental (data : List PropertyDict) (file : Option CsvFile) :
    Option CsvFile :=
  match file with
  | none => some { headerCount := 1, rows := data }
  | some f => some { f with rows := f.rows ++ data }

/-- parser.py `run_optimized_scraping`: slice the URL list into batches of
`batch_size`, map `get_data_from_url` over each batch (the thread pool's
`executor.map` preserves order and joins before the batch continues), keep
the truthy results, append them to the CSV, and finally return
`total_urls = len(urls)`.  The per-URL fetch outcome is passed as a
function `fetch`; wall-clock telemetry (prints, speed, ETA) has no effect
on the result and is not modelled.  Returns the Python return value paired
with the final file state. -/
def run_optimized_scraping (fetch : String → Option PropertyDict) (urls : List String)
    (dataset_file : Option CsvFile) (batch_size : Nat) : Nat × Option CsvFile :=
  let total_urls := urls.length
  let final := (pyChunks urls batch_size).foldl
    (fun file batch_urls =>
      let batch_results := batch_urls.map fetch
      let filtered_results := batch_results.filterMap id
      save_to_csv_incremental filtered_results file)
    dataset_file
  (total_urls, final)

/-!  Claim theorems.  -/

/-- Concatenating the batches gives back the input list. -/
theorem pyChunks_flatten_of_le {α : Type} (B : Nat) (hB : B ≠ 0) :
    ∀ (n : Nat) (l : List α), l.length ≤ n → (pyChunks l B).flatten = l := by
  intro n
  induction n with
  | zero =>
    intro l h
    have : l = [] := List.eq_nil_of_length_eq_zero (Nat.le_zero.mp h)
    subst this
    rw [pyChunks_nil]
    rfl
  | succ k ih =>
    intro l h
    by_cases hl : l = []
    · subst hl
      rw [pyChunks_nil]
      rfl
    · rw [pyChunks_cons B hB l hl, List.flatten_cons]
      have hdrop : (l.drop B).length ≤ k := by
        have hpos : 0 < l.length := List.length_pos.mpr hl
        simp only [List.length_drop]
        omega
      rw [ih (l.drop B) hdrop, List.take_append_drop]

/-- Every batch is nonempty and no longer than the step. -/
theorem pyChunks_length_bounds_of_le {α : Type} (B : Nat) (hB : B ≠ 0) :
    ∀ (n : Nat) (l : List α), l.length ≤ n →
      ∀ c ∈ pyChunks l B, 1 ≤ c.length ∧ c.length ≤ B := by
  intro n
  induction n with
  | zero =>
    intro l h c hc
    have : l = [] := List.eq_nil_of_length_eq_zero (Nat.le_zero.mp h)
    subst this
    rw [pyChunks_nil] at hc
    simp at hc
  | succ k ih =>
    intro l h c hc
    by_cases hl : l = []
    · subst hl
      rw [pyChunks_nil] at hc
      simp at hc
    · rw [pyChunks_cons B hB l hl] at hc
      rcases List.mem_cons.mp hc with hc | hc
      · subst hc
        have hpos : 0 < l.length := List.length_pos.mpr hl
        simp only [List.length_take]
        omega
      · have hdrop : (l.drop B).length ≤ k := by
          have hpos : 0 < l.length := List.length_pos.mpr hl
          simp only [List.length_drop]
          omega
        exact ih (l.drop B) hdrop c hc

/-- `pyChunks` of a nonempty list is nonempty. -/
theorem pyChunks_ne_nil {α : Type} (B : Nat) (hB : B ≠ 0) (l : List α) (hl : l ≠ []) :
    pyChunks l B ≠ [] := by
  rw [pyChunks_cons B hB l hl]
  exact List.cons_ne_nil _ _

/-- Every batch except the last has exactly `B` entries. -/
theorem pyChunks_dropLast_length_of_le {α : Type} (B : Nat) (hB : B ≠ 0) :
    ∀ (n : Nat) (l : List α), l.length ≤ n →
      ∀ c ∈ (pyChunks l B).dropLast, c.length = B := by
  intro n
  induction n with
  | zero =>
    intro l h c hc
    have : l = [] := List.eq_nil_of_length_eq_zero (Nat.le_zero.mp h)
    subst this
    rw [pyChunks_nil] at hc
    simp at hc
  | succ k ih =>
    intro l h c hc
    by_cases hl : l = []
    · subst hl
      rw [pyChunks_nil] at hc
      simp at hc
    · rw [pyChunks_cons B hB l hl] at hc
      by_cases hd : l.drop B = []
      · rw [hd, pyChunks_nil, List.dropLast_single] at hc
        simp at hc
      · obtain ⟨r, rs, hr⟩ := List.exists_cons_of_ne_nil (pyChunks_ne_nil B hB _ hd)
        rw [hr, List.dropLast_cons₂] at hc
        rcases List.mem_cons.mp hc with hc | hc
        · subst hc
          have hlt : B < l.length := by
            have hpos : 0 < (l.drop B).length := List.length_pos.mpr hd
            simp only [List.length_drop] at hpos
            omega
          simp only [List.length_take]
          omega
        · have hdrop : (l.drop B).length ≤ k := by
            have hpos : 0 < l.length := List.length_pos.mpr hl
            simp only [List.length_drop]
            omega
          exact ih (l.drop B) hdrop c (hr ▸ hc)

/-- C1: for every URL list of length N and every batch size B > 0, the
batching step of `run_optimized_scraping` (`pyChunks`, the slices
`urls[i:i+B]`) partitions the input into consecutive batches: concatenated
they give back the input, their lengths sum to N, every batch except
possibly the last has exactly B entries, and every batch (the last
included) has between 1 and B entries. -/
theorem run_optimized_scraping_batching (urls : List String) (B : Nat) (hB : 0 < B) :
    (pyChunks urls B).flatten = urls
    ∧ ((pyChunks urls B).map List.length).sum = urls.length
    ∧ (∀ c ∈ (pyChunks urls B).dropLast, c.length = B)
    ∧ (∀ c ∈ pyChunks urls B, 1 ≤ c.length ∧ c.length ≤ B) := by
  have hB' : B ≠ 0 := by omega
  have hfl := pyChunks_flatten_of_le B hB' urls.length urls (le_refl _)
  refine ⟨hfl, ?_, ?_, ?_⟩
  · rw [← List.length_flatten, hfl]
  · exact pyChunks_dropLast_length_of_le B hB' urls.length urls (le_refl _)
  · exact pyChunks_length_bounds_of_le B hB' urls.length urls (le_refl _)

/-- Witness for C1 at a concrete input: three URLs, batch size two. -/
theorem run_optimized_scraping_batching_witness :
    0 < 2
    ∧ ((pyChunks ["a", "b", "c"] 2).flatten = ["a", "b", "c"]
      ∧ ((pyChunks ["a", "b", "c"] 2).map List.length).sum = (["a", "b", "c"] : List String).length
      ∧ (∀ c ∈ (pyChunks ["a", "b", "c"] 2).dropLast, c.length = 2)
      ∧ (∀ c ∈ pyChunks ["a", "b", "c"] 2, 1 ≤ c.length ∧ c.length ≤ 2)) :=
  ⟨by decide, run_optimized_scraping_batching ["a", "b", "c"] 2 (by decide)⟩

/-- C3: `run_optimized_scraping` returns `total_urls = len(urls)`, the
number of URLs submitted, whatever the per-URL outcomes are and however
many records survive the filter. -/
theorem run_optimized_scraping_returns_submitted (fetch : String → Option PropertyDict)
    (urls : List String) (dataset_file : Option CsvFile) (batch_size : Nat)
    (_hB : 0 < batch_size) :
    (run_optimized_scraping fetch urls dataset_file batch_size).fst = urls.length := rfl

/-- Witness for C3 at a concrete input: two URLs whose fetches both fail
still count as two submitted. -/
theorem run_optimized_scraping_returns_submitted_witness :
    0 < 1
    ∧ (run_optimized_scraping (fun _ => none) ["a", "b"] none 1).fst
        = (["a", "b"] : List String).length :=
  ⟨by decide, run_optimized_scraping_returns_submitted (fun _ => none) ["a", "b"] none 1 (by decide)⟩

/-- C4: `get_data_from_url` never raises (it is a total function; the
Python `try` catches every exception): a raised fetch (timeout, connection
failure or any other exception) and a non-success status both yield Skip
(`none`), and a record comes back only from a response with status 200. -/
theorem get_data_from_url_error_handling (url : String) (outcome : FetchOutcome DetailPage) :
    (∀ e, outcome = .err e → get_data_from_url url outcome = none)
    ∧ (∀ status page, outcome = .resp status page → status ≠ 200 →
        get_data_from_url url outcome = none)
    ∧ (∀ r, get_data_from_url url outcome = some r → ∃ page, outcome = .resp 200 page) := by
  refine ⟨?_, ?_, ?_⟩
  · intro e he
    subst he
    rfl
  · intro status page hr hs
    subst hr
    simp [get_data_from_url, hs]
  · intro r hr
    cases outcome with
    | err e => simp [get_data_from_url] at hr
    | resp status page =>
      by_cases hs : status = 200
      · exact ⟨page, by rw [hs]⟩
      · simp [get_data_from_url, hs] at hr

/-- Witness for C4 at concrete inputs: a timeout and a 404 both yield Skip. -/
theorem get_data_from_url_error_handling_witness :
    get_data_from_url "u" (.err .timeout) = none
    ∧ get_data_from_url "u" (.resp 404 ⟨none, none, none, none⟩) = none :=
  ⟨(get_data_from_url_error_handling "u" (.err .timeout)).1 .timeout rfl,
   (get_data_from_url_error_handling "u" (.resp 404 ⟨none, none, none, none⟩)).2.1
     404 ⟨none, none, none, none⟩ rfl (by decide)⟩

/-- C5: `dedupe` (the `list(set(results))` step of `run_optimized_crawling`)
returns a list with no repeated element whose members are exactly the
members of the input, under exact string equality. -/
theorem dedupe_nodup_and_mem (results : List String) :
    (dedupe results).Nodup ∧ ∀ a, a ∈ dedupe results ↔ a ∈ results :=
  ⟨List.nodup_dedup results, fun _ => List.mem_dedup⟩

/-- C6: whenever the financial summary div is present and its text contains
"annuity" in any letter case, `get_property_data` returns Skip (`none`),
whatever the rest of the page holds. -/
theorem get_property_data_annuity_skip (url : String) (soup : DetailPage) (t : String)
    (hf : soup.financial = some t)
    (ha : strContains (pyLower t).data "annuity".data = true) :
    get_property_data url soup = none := by
  obtain ⟨fin, city, price, info⟩ := soup
  simp only at hf
  subst hf
  simp [get_property_data, ha]

/-- Witness for C6 at a concrete input: a life-annuity listing whose other
fields are all extractable is skipped. -/
theorem get_property_data_annuity_skip_witness :
    (DetailPage.mk (some "Life Annuity sale") (some "1000 Brussels") (some "250000")
        (some [("Furnished", some "Yes")])).financial = some "Life Annuity sale"
    ∧ strContains (pyLower "Life Annuity sale").data "annuity".data = true
    ∧ get_property_data "u"
        (DetailPage.mk (some "Life Annuity sale") (some "1000 Brussels") (some "250000")
          (some [("Furnished", some "Yes")])) = none :=
  ⟨rfl, by decide,
   get_property_data_annuity_skip "u"
     (DetailPage.mk (some "Life Annuity sale") (some "1000 Brussels") (some "250000")
       (some [("Furnished", some "Yes")]))
     "Life Annuity sale" rfl (by decide)⟩

/-- C7: `fetch_properties_urls` returns the empty list on a raised fetch and
on any non-200 status; on a 200 response its output holds exactly the
`h2 a[href]` link targets that do not contain "/projectdetail/", so no
excluded link ever appears. -/
theorem fetch_properties_urls_filtering (outcome : FetchOutcome ListingPage) :
    (∀ e, outcome = .err e → fetch_properties_urls outcome = [])
    ∧ (∀ status page, outcome = .resp status page → status ≠ 200 →
        fetch_properties_urls outcome = [])
    ∧ (∀ page, outcome = .resp 200 page →
        ∀ href, href ∈ fetch_properties_urls outcome ↔
          href ∈ page.anchors ∧ strContains href.data "/projectdetail/".data = false) := by
  refine ⟨?_, ?_, ?_⟩
  · intro e he
    subst he
    rfl
  · intro status page hr hs
    subst hr
    simp [fetch_properties_urls, hs]
  · intro page hr href
    subst hr
    simp [fetch_properties_urls, List.mem_filter]

/-- Witness for C7 at concrete inputs: a timeout yields no URLs, and on a
200 page an aggregate-listing link is excluded while a unit link passes. -/
theorem fetch_properties_urls_filtering_witness :
    fetch_properties_urls (.err .timeout) = []
    ∧ ("/en/detail/house/1" ∈
        fetch_properties_urls (.resp 200 ⟨["/en/detail/house/1", "/en/projectdetail/2"]⟩)
        ↔ "/en/detail/house/1" ∈ (["/en/detail/house/1", "/en/projectdetail/2"] : List String)
          ∧ strContains "/en/detail/house/1".data "/projectdetail/".data = false) :=
  ⟨(fetch_properties_urls_filtering (.err .timeout)).1 .timeout rfl,
   (fetch_properties_urls_filtering
      (.resp 200 ⟨["/en/detail/house/1", "/en/projectdetail/2"]⟩)).2.2
     ⟨["/en/detail/house/1", "/en/projectdetail/2"]⟩ rfl "/en/detail/house/1"⟩

/-- Folding further append calls onto an existing file only appends rows:
the header count never changes once the file exists. -/
theorem save_foldl_some (batches : List (List PropertyDict)) :
    ∀ f : CsvFile,
      batches.foldl (fun file data => save_to_csv_incremental data file) (some f)
        = some ⟨f.headerCount, f.rows ++ batches.flatten⟩ := by
  induction batches with
  | nil => intro f; simp
  | cons b bs ih =>
    intro f
    rw [List.foldl_cons]
    show List.foldl (fun file data => save_to_csv_incremental data file)
      (some ⟨f.headerCount, f.rows ++ b⟩) bs = _
    rw [ih ⟨f.headerCount, f.rows ++ b⟩]
    simp

/-- C8: starting from a non-existent destination file, any nonempty
sequence of `save_to_csv_incremental` calls creates the file on the first
call, writes the header exactly once, and every call appends its rows in
order with no further header.  (Read at every nonempty prefix of a call
sequence, this gives the invariant after each call.) -/
theorem save_to_csv_incremental_header_once (batches : List (List PropertyDict))
    (h : batches ≠ []) :
    ∃ f, batches.foldl (fun file data => save_to_csv_incremental data file) none = some f
      ∧ f.headerCount = 1 ∧ f.rows = batches.flatten := by
  cases batches with
  | nil => exact absurd rfl h
  | cons b bs =>
    refine ⟨⟨1, b ++ bs.flatten⟩, ?_, rfl, by simp⟩
    rw [List.foldl_cons]
    show List.foldl (fun file data => save_to_csv_incremental data file)
      (some ⟨1, b⟩) bs = _
    rw [save_foldl_some bs ⟨1, b⟩]

/-- Witness for C8 at a concrete input: two calls (one record, then none)
leave one header and the record. -/
theorem save_to_csv_incremental_header_once_witness :
    ([[initialize_property_dict "u"], []] : List (List PropertyDict)) ≠ []
    ∧ ∃ f, ([[initialize_property_dict "u"], []] : List (List PropertyDict)).foldl
          (fun file data => save_to_csv_incremental data file) none = some f
        ∧ f.headerCount = 1
        ∧ f.rows = ([[initialize_property_dict "u"], []] : List (List PropertyDict)).flatten :=
  ⟨List.cons_ne_nil _ _,
   save_to_csv_incremental_header_once [[initialize_property_dict "u"], []]
     (List.cons_ne_nil _ _)⟩

/-- C9: `set_property_type` never raises: when the slash-split URL has
fewer than 6 parts the guard fails and the dict is returned untouched, so
the type and subtype fields keep their initial `None`. -/
theorem set_property_type_short_url (property_dict : PropertyDict) (url : String)
    (h : (pySplit url "/").length < 6) :
    set_property_type property_dict url = property_dict := by
  simp only [set_property_type]
  rw [dif_neg (by omega)]

/-- Witness for C9 at a concrete input: a URL with two slash-parts leaves
the freshly initialised dict unchanged, its type and subtype `None`. -/
theorem set_property_type_short_url_witness :
    (pySplit "a/b" "/").length < 6
    ∧ set_property_type (initialize_property_dict "a/b") "a/b"
        = initialize_property_dict "a/b"
    ∧ (initialize_property_dict "a/b").typeOfProperty = none
    ∧ (initialize_property_dict "a/b").subtypeOfProperty = none :=
  ⟨by decide,
   set_property_type_short_url (initialize_property_dict "a/b") "a/b" (by decide),
   rfl, rfl⟩

/-- C2 counterexample: a successful fetch of a page whose pagination
selector matches nothing (control absent, or present with no
`data-value-page` attribute) makes `fetch_page_limit` return
`int(1) + 10 = 11`, not the 1 the claim requires. -/
theorem fetch_page_limit_absent_control_counterexample :
    fetch_page_limit (.resp 200 ⟨[]⟩) = .int 11 ∧ PyVal.int 11 ≠ PyVal.int 1 :=
  ⟨rfl, by decide⟩

/-- C2 (amended): `fetch_page_limit` returns the page index advertised by
the last selected pagination link plus 10 when that value is numeric (the
highest advertised, as the control lists pages in ascending order); it
returns 11 — the default 1 plus the margin 10 — and not 1, whenever the
fetch succeeds but the control is absent or no tag carries the page-index
attribute; it returns 1 (without raising) exactly when the fetch raises;
and a non-numeric last attribute value is returned back as that string. -/
theorem fetch_page_limit_characterization (outcome : FetchOutcome SeedPage) :
    (∀ e, outcome = .err e → fetch_page_limit outcome = .int 1)
    ∧ (∀ status page, outcome = .resp status page → page.pagValues = [] →
        fetch_page_limit outcome = .int 11)
    ∧ (∀ status page (h : page.pagValues ≠ []) (n : Int), outcome = .resp status page →
        pyInt (page.pagValues.getLast h) = some n →
        fetch_page_limit outcome = .int (n + 10))
    ∧ (∀ status page (h : page.pagValues ≠ []), outcome = .resp status page →
        pyInt (page.pagValues.getLast h) = none →
        fetch_page_limit outcome = .str (page.pagValues.getLast h)) := by
  refine ⟨?_, ?_, ?_, ?_⟩
  · intro e he
    subst he
    rfl
  · intro status page hr hv
    subst hr
    simp [fetch_page_limit, hv]
  · intro status page h n hr hp
    subst hr
    simp [fetch_page_limit, h, hp]
  · intro status page h hr hp
    subst hr
    simp [fetch_page_limit, h, hp]

/-- Witness for C2 (amended) at concrete inputs: a raised fetch returns 1,
and a control advertising pages up to 3 returns 13. -/
theorem fetch_page_limit_characterization_witness :
    fetch_page_limit (.err .connectionError) = .int 1
    ∧ fetch_page_limit (.resp 200 ⟨["2", "3"]⟩) = .int 13 :=
  ⟨(fetch_page_limit_characterization (.err .connectionError)).1 .connectionError rfl,
   (fetch_page_limit_characterization (.resp 200 ⟨["2", "3"]⟩)).2.2.1
     200 ⟨["2", "3"]⟩ (by decide) 3 rfl (by decide)⟩

/-- C10: for a seed whose page bound is `max_p`, `generate_pages_urls`
emits exactly the page URLs with indices 1 through `max_p - 1` (the bound
itself excluded, mirroring `range(1, max_p)`); with bound 1 it emits no
page URL for that seed at all. -/
theorem generate_pages_urls_range (limit : String → Nat) (url : String) (max_p : Nat)
    (hmax : limit url = max_p) :
    (∀ s, s ∈ generate_pages_urls limit [url] ↔
      ∃ i, 1 ≤ i ∧ i < max_p ∧ s = url ++ "&page=" ++ toString i)
    ∧ (max_p = 1 → generate_pages_urls limit [url] = []) := by
  subst hmax
  constructor
  · intro s
    simp only [generate_pages_urls, List.flatMap, List.map_cons, List.map_nil,
      List.flatten_cons, List.flatten_nil, List.append_nil, List.mem_map,
      List.mem_range'_1]
    constructor
    · rintro ⟨i, ⟨h1, h2⟩, rfl⟩
      exact ⟨i, h1, by omega, rfl⟩
    · rintro ⟨i, h1, h2, rfl⟩
      exact ⟨i, ⟨h1, by omega⟩, rfl⟩
  · intro h1
    simp [generate_pages_urls, h1]

/-- Witness for C10 at a concrete input: bound 3 emits pages 1 and 2 only,
and (by the bound-1 clause applied to a second seed) bound 1 emits
nothing. -/
theorem generate_pages_urls_range_witness :
    ((fun _ => 3 : String → Nat) "u" = 3)
    ∧ ((∀ s, s ∈ generate_pages_urls (fun _ => 3) ["u"] ↔
        ∃ i, 1 ≤ i ∧ i < 3 ∧ s = "u" ++ "&page=" ++ toString i)
      ∧ (3 = 1 → generate_pages_urls (fun _ => 3) ["u"] = []))
    ∧ ((fun _ => 1 : String → Nat) "v" = 1)
    ∧ generate_pages_urls (fun _ => 1) ["v"] = [] :=
  ⟨rfl, generate_pages_urls_range (fun _ => 3) "u" 3 rfl, rfl,
   (generate_pages_urls_range (fun _ => 1) "v" 1 rfl).2 rfl⟩
